import Mathlib

/-!
Verification development for the RPS arena game (host-authoritative
simulation and network synchronization). The definitions below are a
shallow embedding of the JavaScript sources: `constants.js`,
`Soldier.js`, `Army` (unnamed/part_001), `Game.js` and
`NetworkManager.js` (cloud-relay version, with the PeerJS party-id
generator also embedded). JS numbers are modelled as rationals, JS `Map`
objects as insertion-ordered association lists, and `null`/`undefined`
as `Option`. Randomness (`Math.random()`) and transcendental library
calls (`Math.sqrt`) are supplied as explicit oracle arguments so that
every definition stays executable.
-/

namespace RPS

/-- SOLDIER_TYPES.ROCK from constants.js. -/
def ROCK : String := "rock"

/-- SOLDIER_TYPES.PAPER from constants.js. -/
def PAPER : String := "paper"

/-- SOLDIER_TYPES.SCISSORS from constants.js. -/
def SCISSORS : String := "scissors"

/-- GAME_STATES.MENU from constants.js. -/
def MENU : String := "menu"

/-- GAME_STATES.PLACEMENT from constants.js. -/
def PLACEMENT : String := "placement"

/-- GAME_STATES.PLAYING from constants.js. -/
def PLAYING : String := "playing"

/-- GAME_STATES.ENDED from constants.js. -/
def ENDED : String := "ended"

/-- The three faction strings, in the insertion order of
`Object.values(SOLDIER_TYPES)` used by `Game.startGame`. -/
inductive Faction where
  | rock
  | paper
  | scissors
deriving DecidableEq

/-- The string value of a faction, as stored in SOLDIER_TYPES. -/
def Faction.str : Faction → String
  | .rock => ROCK
  | .paper => PAPER
  | .scissors => SCISSORS

/-- GAME_CONFIG.SOLDIERS_PER_ARMY. -/
def SOLDIERS_PER_ARMY : Nat := 5

/-- GAME_CONFIG.SOLDIER_BASE_SPEED. -/
def SOLDIER_BASE_SPEED : ℚ := 5

/-- GAME_CONFIG.SOLDIER_COLLISION_RADIUS. -/
def SOLDIER_COLLISION_RADIUS : ℚ := 1/2

/-- GAME_CONFIG.SPEED_PENALTY_PER_SOLDIER. -/
def SPEED_PENALTY_PER_SOLDIER : ℚ := 12/1000

/-- GAME_CONFIG.MIN_SPEED_MULTIPLIER. -/
def MIN_SPEED_MULTIPLIER : ℚ := 3/4

/-- GAME_CONFIG.ARENA_WIDTH. -/
def ARENA_WIDTH : ℚ := 40

/-- GAME_CONFIG.ARENA_HEIGHT. -/
def ARENA_HEIGHT : ℚ := 24

/-- GAME_CONFIG.FOLLOW_DISTANCE. -/
def FOLLOW_DISTANCE : ℚ := 1

/-- GAME_CONFIG.FOLLOW_SMOOTHING. -/
def FOLLOW_SMOOTHING : ℚ := 15/100

/-- POWERUP_CONFIG.reinforcement.soldiersToRestore from constants.js. -/
def REINFORCEMENT_SOLDIERS_TO_RESTORE : Int := 2

/-- A soldier (Soldier.js). The 3D mesh is reduced to its simulation-relevant
ground-plane position (x, z); render-only animation state (y bobbing,
rotation, materials) is elided. `type` is the faction string. -/
structure Soldier where
  id : String
  type : String
  isLeader : Bool
  isConverting : Bool
  isDragging : Bool
  x : ℚ
  z : ℚ
deriving DecidableEq

/-- A freshly constructed Soldier (`new Soldier(scene, type, isLeader, id)`):
flags cleared, mesh at the origin until `setPosition` is called. -/
def newSoldier (type : String) (isLeader : Bool) (id : String) : Soldier :=
  { id := id, type := type, isLeader := isLeader, isConverting := false,
    isDragging := false, x := 0, z := 0 }

/-- Soldier.changeType: mutates the faction tag in place (the model mesh is
recreated but id, flags and position are untouched). -/
def Soldier.changeType (s : Soldier) (newType : String) : Soldier :=
  { s with type := newType }

/-- An army (Army class in unnamed/part_001). `leader` is the weak back
reference into `soldiers`, modelled by the referenced soldier's id;
`maxSoldiers` is set to GAME_CONFIG.SOLDIERS_PER_ARMY at construction. -/
structure Army where
  type : String
  soldiers : List Soldier
  leader : Option String
  isInvincible : Bool
  speedMultiplier : ℚ
  isReversed : Bool
  magnetActive : Bool
  maxSoldiers : Nat
deriving DecidableEq

/-- `army.soldiers.find(s => s.id === sid)`. -/
def findById (ss : List Soldier) (sid : String) : Option Soldier :=
  ss.find? (fun s => s.id == sid)

/-- Remove the first soldier with the given id
(`indexOf` + `splice(index, 1)` in Army.removeSoldier). -/
def eraseById : List Soldier → String → List Soldier
  | [], _ => []
  | s :: rest, sid => if s.id == sid then rest else s :: eraseById rest sid

/-- Army.addSoldier: appends. -/
def Army.addSoldier (a : Army) (s : Soldier) : Army :=
  { a with soldiers := a.soldiers ++ [s] }

/-- Army.promoteNewLeader: flags the current first soldier as leader and
points the leader reference at it. -/
def Army.promoteNewLeader (a : Army) : Army :=
  match a.soldiers with
  | [] => { a with leader := none }
  | s :: rest =>
      let s2 := { s with isLeader := true }
      { a with soldiers := s2 :: rest, leader := some s2.id }

/-- Army.removeSoldier: removes by identity (here: by id, the join key used
throughout the code); if the removed soldier was flagged leader, a new
leader is promoted when the army stays non-empty, otherwise the leader
reference becomes null. The removed soldier's own isLeader flag is not
touched, exactly as in the source. -/
def Army.removeSoldierById (a : Army) (sid : String) : Army :=
  match findById a.soldiers sid with
  | none => a
  | some s =>
      let rest := eraseById a.soldiers sid
      if s.isLeader then
        if 0 < rest.length then
          Army.promoteNewLeader { a with soldiers := rest }
        else
          { a with soldiers := rest, leader := none }
      else
        { a with soldiers := rest }

/-- In-place mutation `soldier.isConverting = b` seen through the army that
holds the soldier object. -/
def Army.setConverting (a : Army) (sid : String) (b : Bool) : Army :=
  let f := fun (s : Soldier) =>
    if s.id == sid then { s with isConverting := b } else s
  { a with soldiers := a.soldiers.map f }

/-- Army.reinforceSoldiers. `now` stands for `Date.now()` and `rng i` yields
the pair `(Math.cos(angle), Math.sin(angle))` of the random placement angle
drawn for the i-th new soldier. `Math.min(count, maxSoldiers - currentCount)`
is computed over JS numbers, so it can be negative; a negative bound makes
the push loop run zero times, which `Int.toNat` captures. -/
def Army.reinforceSoldiers (a : Army) (count : Int) (now : Nat)
    (rng : Nat → ℚ × ℚ) : Army :=
  let currentCount : Int := a.soldiers.length
  let toAdd : Int := min count ((a.maxSoldiers : Int) - currentCount)
  let added := (List.range toAdd.toNat).map (fun i =>
    let sid := a.type ++ "_R_" ++ toString now ++ "_" ++ toString i
    let base := newSoldier a.type false sid
    match a.leader.bind (findById a.soldiers) with
    | some L =>
        let c := (rng i).1
        let s := (rng i).2
        let dist := FOLLOW_DISTANCE * 2
        { base with x := L.x + c * dist, z := L.z + s * dist }
    | none => base)
  { a with soldiers := a.soldiers ++ added }

/-- Oracle for the JS Math library calls whose exact values the embedding
does not reconstruct: `Math.sqrt` as used for follower distances and zone
radii. Theorems quantify over every oracle. -/
structure JsMath where
  sqrt : ℚ → ℚ

/-- Axis-aligned wall bounds stored in `wall.userData.bounds`. -/
structure WallBounds where
  minX : ℚ
  maxX : ℚ
  minZ : ℚ
  maxZ : ℚ
deriving DecidableEq

/-- A circular slow or speed zone (`zone.userData`): centre, radius and the
multiplier returned on containment. -/
structure CircleZone where
  cx : ℚ
  cz : ℚ
  radius : ℚ
  mult : ℚ
deriving DecidableEq

/-- The penetration vector returned by Arena.checkWallCollision on a hit. -/
structure WallHit where
  pushX : ℚ
  pushZ : ℚ
deriving DecidableEq

/-- The arena geometry consumed by Army.update: walls (interior plus
boundary) and circular slow/speed zones. -/
structure Arena where
  walls : List WallBounds
  slowZones : List CircleZone
  speedZones : List CircleZone
deriving DecidableEq

/-- Arena.checkWallCollision: nearest-point circle-vs-rectangle test against
every wall in order, returning the first hit's penetration vector
(the source compares squared distances, no square root involved). -/
def Arena.checkWallCollision (ar : Arena) (x z radius : ℚ) : Option WallHit :=
  ar.walls.findSome? (fun b =>
    let closestX := max b.minX (min x b.maxX)
    let closestZ := max b.minZ (min z b.maxZ)
    let distX := x - closestX
    let distZ := z - closestZ
    if distX * distX + distZ * distZ < radius * radius then
      some { pushX := distX, pushZ := distZ }
    else none)

/-- Arena.getSlowMultiplier: speed zones are checked before slow zones;
1 if the point is in neither. The source compares
`Math.sqrt(dx^2 + dz^2) < radius`, hence the sqrt oracle. -/
def Arena.getSlowMultiplier (ops : JsMath) (ar : Arena) (x z : ℚ) : ℚ :=
  let inZone := fun (zo : CircleZone) =>
    if ops.sqrt ((x - zo.cx) ^ 2 + (z - zo.cz) ^ 2) < zo.radius then
      some zo.mult
    else none
  match ar.speedZones.findSome? inZone with
  | some m => m
  | none =>
      match ar.slowZones.findSome? inZone with
      | some m => m
      | none => 1

/-- The normalized movement vector handed to Army.update (null/undefined is
`Option.none` at the call site). -/
structure InputVec where
  x : ℚ
  z : ℚ
deriving DecidableEq

/-- Clamp a coordinate into the arena bounds minus the collision margin,
as in Army.moveLeader / Army.updateFollowers. -/
def clampArena (halfExtent margin v : ℚ) : ℚ :=
  max (-halfExtent + margin) (min (halfExtent - margin) v)

/-- Update the position of the soldier with the given id (the in-place
`mesh.position` mutation seen through the roster). -/
def setPosById (ss : List Soldier) (sid : String) (nx nz : ℚ) : List Soldier :=
  ss.map (fun s => if s.id == sid then { s with x := nx, z := nz } else s)

/-- Army.moveLeader: advance the leader by the input, cancel movement on the
axis with the larger wall penetration, then clamp to the arena bounds. -/
def Army.moveLeader (a : Army) (delta inputX inputZ speed : ℚ)
    (arena : Arena) : Army :=
  match a.leader.bind (findById a.soldiers) with
  | none => a
  | some L =>
      let movement := speed * delta
      let newX := L.x + inputX * movement
      let newZ := L.z + inputZ * movement
      let coll := arena.checkWallCollision newX newZ SOLDIER_COLLISION_RADIUS
      let afterColl :=
        match coll with
        | some c =>
            if |c.pushX| > |c.pushZ| then (L.x, newZ) else (newX, L.z)
        | none => (newX, newZ)
      let nX := clampArena (ARENA_WIDTH / 2) SOLDIER_COLLISION_RADIUS afterColl.1
      let nZ := clampArena (ARENA_HEIGHT / 2) SOLDIER_COLLISION_RADIUS afterColl.2
      { a with soldiers := setPosById a.soldiers L.id nX nZ }

/-- One follower's spring-like pursuit step in Army.updateFollowers: move
toward the target when separation exceeds FOLLOW_DISTANCE, with the same
wall axis-lock and bounds clamp as the leader. -/
def followerMove (ops : JsMath) (speed : ℚ) (arena : Arena)
    (ss : List Soldier) (targetId sid : String) : List Soldier :=
  match findById ss targetId, findById ss sid with
  | some t, some s =>
      let dx := t.x - s.x
      let dz := t.z - s.z
      let distance := ops.sqrt (dx * dx + dz * dz)
      if distance > FOLLOW_DISTANCE then
        let moveSpeed := speed * FOLLOW_SMOOTHING * (1 + (distance - FOLLOW_DISTANCE))
        let newX := s.x + dx / distance * moveSpeed
        let newZ := s.z + dz / distance * moveSpeed
        let coll := arena.checkWallCollision newX newZ SOLDIER_COLLISION_RADIUS
        let afterColl :=
          match coll with
          | some c =>
              if |c.pushX| > |c.pushZ| then (s.x, newZ) else (newX, s.z)
          | none => (newX, newZ)
        let nX := clampArena (ARENA_WIDTH / 2) SOLDIER_COLLISION_RADIUS afterColl.1
        let nZ := clampArena (ARENA_HEIGHT / 2) SOLDIER_COLLISION_RADIUS afterColl.2
        setPosById ss sid nX nZ
      else ss
  | _, _ => ss

/-- Army.updateFollowers: the follower at index 0 chases the leader and each
later follower chases the previous one; the in-place mutations mean each
step reads positions already updated by the steps before it. A null leader
makes the first follower's step a no-op (`if (!target) return`) and the
chain target then continues from that follower. -/
def Army.updateFollowers (a : Army) (ops : JsMath) (speed : ℚ)
    (arena : Arena) : Army :=
  let followerIds := (a.soldiers.filter (fun s => !s.isLeader)).map (·.id)
  let step := fun (acc : List Soldier × Option String) (sid : String) =>
    match acc.2 with
    | none => (acc.1, some sid)
    | some tid => (followerMove ops speed arena acc.1 tid sid, some sid)
  { a with soldiers := (followerIds.foldl step (a.soldiers, a.leader)).1 }

/-- Army.update (unnamed/part_001 lines 849-881): the per-tick army update.
Returns unchanged when the input is null/undefined or the roster is empty;
otherwise computes the effective speed (size penalty, zone multiplier,
speed-boost multiplier), negates the input under reversed controls, moves
the leader and then the follower chain. The final render-only animation
pass (`soldier.update`) touches no simulation state in this model. -/
def Army.update (a : Army) (ops : JsMath) (delta : ℚ)
    (input : Option InputVec) (arena : Arena) : Army :=
  match input with
  | none => a
  | some inp =>
      if a.soldiers.length = 0 then a
      else
        let baseSpeed := SOLDIER_BASE_SPEED
        let sizePenalty :=
          1 - max 0 ((a.soldiers.length : ℚ) - (SOLDIERS_PER_ARMY : ℚ))
              * SPEED_PENALTY_PER_SOLDIER
        let speedMult := max sizePenalty MIN_SPEED_MULTIPLIER
        let leaderPos :=
          match a.leader.bind (findById a.soldiers) with
          | some L => (L.x, L.z)
          | none => ((0 : ℚ), (0 : ℚ))
        let zoneMult := arena.getSlowMultiplier ops leaderPos.1 leaderPos.2
        let finalSpeed := baseSpeed * speedMult * zoneMult * a.speedMultiplier
        let moveX := if a.isReversed then -inp.x else inp.x
        let moveZ := if a.isReversed then -inp.z else inp.z
        let a1 :=
          match a.leader with
          | some _ => a.moveLeader delta moveX moveZ finalSpeed arena
          | none => a
        a1.updateFollowers ops finalSpeed arena

/-- Game.getRPSWinner (Game.js lines 449-462), transcribed clause by
clause over the faction strings. -/
def getRPSWinner (type1 type2 : String) : Option String :=
  if type1 = type2 then none
  else if type1 = ROCK ∧ type2 = SCISSORS then some type1
  else if type2 = ROCK ∧ type1 = SCISSORS then some type2
  else if type1 = SCISSORS ∧ type2 = PAPER then some type1
  else if type2 = SCISSORS ∧ type1 = PAPER then some type2
  else if type1 = PAPER ∧ type2 = ROCK then some type1
  else if type2 = PAPER ∧ type1 = ROCK then some type2
  else none

/-- Lookup in a JS `Map` keyed by strings (insertion-ordered association
list): `map.get(k)`, undefined when absent. -/
def mapGet {α : Type} : List (String × α) → String → Option α
  | [], _ => none
  | p :: rest, k => if p.1 == k then some p.2 else mapGet rest k

/-- `map.has(k)`. -/
def mapHas {α : Type} (m : List (String × α)) (k : String) : Bool :=
  (mapGet m k).isSome

/-- Mutate the entry stored under `k` (the effect of calling a mutating
method on the object returned by `map.get(k)`). -/
def mapUpdate {α : Type} (m : List (String × α)) (k : String) (f : α → α) :
    List (String × α) :=
  m.map (fun p => if p.1 == k then (p.1, f p.2) else p)

/-- `map.set(k, v)`: replaces in place when the key exists, appends
otherwise. -/
def mapSet {α : Type} (m : List (String × α)) (k : String) (v : α) :
    List (String × α) :=
  if mapHas m k then m.map (fun p => if p.1 == k then (p.1, v) else p)
  else m ++ [(k, v)]

/-- The Game state visible to the claims: the phase string, the
faction-keyed army map, the power-up spawner flag cleared by endGame, and
the winner handed to `ui.showGameOver`. -/
structure GameState where
  state : String
  armies : List (String × Army)
  isSpawning : Bool
  gameOver : Option String
deriving DecidableEq

/-- Game.convertSoldier (Game.js lines 464-478), as the atomic mutation both
the host collision path and the remote-conversion handler apply: the
soldier is flagged converting, then (when the conversion animation
completes) removed from the source army — promoting a new leader there if
needed — appended to the destination army, its faction tag flipped to the
destination army's type and the converting flag cleared. The sequential
map updates reproduce the in-place mutations, including the case where
source and destination keys coincide. -/
def convertSoldierMap (armies : List (String × Army))
    (fromT toT toArmyType : String) (s : Soldier) : List (String × Army) :=
  let armies1 := mapUpdate armies fromT (fun a => a.setConverting s.id true)
  let armies2 := mapUpdate armies1 fromT (fun a => a.removeSoldierById s.id)
  let s2 : Soldier := { s with type := toArmyType, isConverting := false }
  mapUpdate armies2 toT (fun a => a.addSoldier s2)

/-- Game.endGame: the phase becomes ENDED, the power-up manager stops
spawning and the winner is shown. -/
def GameState.endGame (g : GameState) (winnerType : String) : GameState :=
  { g with state := ENDED, isSpawning := false, gameOver := some winnerType }

/-- Game.checkWinCondition (Game.js lines 488-496): filter the army map to
the entries with a non-empty roster; exactly one remaining entry ends the
game in that faction's favor, anything else leaves the state untouched. -/
def GameState.checkWinCondition (g : GameState) : GameState :=
  let active := g.armies.filter (fun p => 0 < p.2.soldiers.length)
  match active with
  | [(t, _)] => g.endGame t
  | _ => g

/-- The payload of a `conversion` network message. -/
structure ConversionMsg where
  soldierId : String
  fromType : String
  toType : String
deriving DecidableEq

/-- NetworkManager.handleRemoteConversion (cloud-relay version, lines
207-220): both armies must exist locally, the soldier must be found by id
in the source army's roster and must not already be mid-conversion;
otherwise the message is ignored. On success the handler applies
Game.convertSoldier — the same mutation as the host collision path. -/
def handleRemoteConversion (g : GameState) (msg : ConversionMsg) : GameState :=
  match mapGet g.armies msg.fromType, mapGet g.armies msg.toType with
  | some fromA, some toA =>
      match findById fromA.soldiers msg.soldierId with
      | some s =>
          if s.isConverting then g
          else { g with armies :=
                  convertSoldierMap g.armies msg.fromType msg.toType toA.type s }
      | none => g
  | _, _ => g

/-- The interpolation factor `lerpSpeed` in
NetworkManager.handleGameStateSync. -/
def lerpSpeed : ℚ := 1/2

/-- One matched soldier's position update in handleGameStateSync:
`position += (serverPos - localPos) * lerpSpeed` on each axis. -/
def syncSoldierPos (s : Soldier) (srvX srvZ : ℚ) : Soldier :=
  { s with x := s.x + (srvX - s.x) * lerpSpeed,
           z := s.z + (srvZ - s.z) * lerpSpeed }

/-- One soldier record of a `game_state` message. -/
structure ServerSoldier where
  id : String
  x : ℚ
  z : ℚ
  isLeader : Bool
deriving DecidableEq

/-- One army record of a `game_state` message. -/
structure ServerArmyData where
  soldiers : List ServerSoldier
  isInvincible : Bool
  speedMultiplier : ℚ
deriving DecidableEq

/-- `army.soldiers.find(s => s.id === serverSoldier.id)` followed by the
in-place lerp: only the first roster entry with the matching id moves. -/
def applyServerSoldier (ss : List Soldier) (srv : ServerSoldier) :
    List Soldier :=
  match ss with
  | [] => []
  | s :: rest =>
      if s.id == srv.id then syncSoldierPos s srv.x srv.z :: rest
      else s :: applyServerSoldier rest srv

/-- One army's share of handleGameStateSync: every server soldier is joined
by id against the local roster and interpolated; the status flags are
overwritten directly. -/
def Army.applyServerArmy (a : Army) (d : ServerArmyData) : Army :=
  { a with soldiers := d.soldiers.foldl applyServerSoldier a.soldiers,
           isInvincible := d.isInvincible,
           speedMultiplier := d.speedMultiplier }

/-- NetworkManager.handleGameStateSync (cloud-relay version, lines 184-205):
ignored by the host and outside the playing phase; otherwise each army
entry of the message that has a local counterpart is reconciled. -/
def handleGameStateSync (isHost : Bool) (g : GameState)
    (data : List (String × ServerArmyData)) : GameState :=
  if isHost then g
  else if g.state ≠ PLAYING then g
  else
    { g with armies := data.foldl (fun m td =>
        match mapGet m td.1 with
        | none => m
        | some _ => mapUpdate m td.1 (fun a => a.applyServerArmy td.2)) g.armies }

/-- One lobby roster entry (`players` map value in the cloud-relay
NetworkManager). -/
structure Player where
  id : String
  username : String
  connected : Bool
deriving DecidableEq

/-- One element of `getPlayersArray()`. -/
structure PlayerEntry where
  type : String
  id : String
  username : String
  connected : Bool
deriving DecidableEq

/-- NetworkManager.getPlayersArray. -/
def getPlayersArray (players : List (String × Player)) : List PlayerEntry :=
  players.map (fun p =>
    { type := p.1, id := p.2.id, username := p.2.username,
      connected := p.2.connected })

/-- NetworkManager.getNextAvailableType (cloud-relay version, lines
222-228): the first unclaimed faction in Paper-then-Scissors order, null
when both are taken; Rock is never in the candidate list. -/
def getNextAvailableType (players : List (String × Player)) : Option String :=
  [PAPER, SCISSORS].find? (fun t => !(mapHas players t))

/-- A message the host emits while handling `join_request`. -/
inductive JoinReply where
  | playerAssigned (targetId : String) (playerType : String)
      (players : List PlayerEntry)
  | partyFull (targetId : String)
deriving DecidableEq

/-- The `join_request` arm of NetworkManager.handleMessage (cloud-relay
version, lines 62-85): a non-host ignores the request; the host claims the
first available faction for the joiner and broadcasts the assignment, or
replies `party_full` addressed to the requester without touching the
roster. -/
def handleJoinRequest (isHost : Bool) (players : List (String × Player))
    (reqId reqUsername : String) :
    List (String × Player) × Option JoinReply :=
  if isHost then
    match getNextAvailableType players with
    | some t =>
        let players2 := mapSet players t
          { id := reqId, username := reqUsername, connected := true }
        (players2, some (JoinReply.playerAssigned reqId t
          (getPlayersArray players2)))
    | none => (players, some (JoinReply.partyFull reqId))
  else (players, none)

/-- The alphabet used by the PeerJS generatePartyId
(`ABCDEFGHJKLMNPQRSTUVWXYZ23456789`). -/
def PARTY_ID_CHARS : List Char := "ABCDEFGHJKLMNPQRSTUVWXYZ23456789".toList

/-- The PeerJS generatePartyId (NetworkManager.js lines 769-776): six
characters, each indexed into the fixed alphabet by
`Math.floor(Math.random() * chars.length)`, supplied here as the oracle
`pick`. -/
def generatePartyId (pick : Nat → Fin 32) : List Char :=
  (List.range 6).map (fun i => PARTY_ID_CHARS.getD (pick i).val 'A')

/-- The base-36 digit characters produced by JS `Number.toString(36)`. -/
def base36Digits : List Char := "0123456789abcdefghijklmnopqrstuvwxyz".toList

/-- The uppercase image of the base-36 digit characters. -/
def base36UpperDigits : List Char :=
  "0123456789ABCDEFGHIJKLMNOPQRSTUVWXYZ".toList

/-- `String.prototype.toUpperCase` on the ASCII range. -/
def jsToUpperChar (c : Char) : Char :=
  if 'a' ≤ c ∧ c ≤ 'z' then Char.ofNat (c.toNat - 32) else c

/-- The characters of `x.toString(36)` for `x = Math.random() ∈ [0, 1)`,
where `ds` is the base-36 fractional digit expansion JS prints (trailing
zeros trimmed): `"0"` for zero, otherwise `"0." ++ digits`. -/
def jsNumToString36 (ds : List (Fin 36)) : List Char :=
  if ds.isEmpty then ['0']
  else '0' :: '.' :: ds.map (fun d => base36Digits.getD d.val '0')

/-- The cloud-relay generatePartyId (NetworkManager.js lines 290-292):
`Math.random().toString(36).substring(2, 8).toUpperCase()`, i.e. drop the
leading `0.`, keep at most six characters and uppercase them. -/
def generatePartyIdRelay (ds : List (Fin 36)) : List Char :=
  (((jsNumToString36 ds).drop 2).take 6).map jsToUpperChar

/-- The channel name adopted by NetworkManager.joinParty:
`partyId.toUpperCase()`. -/
def joinPartyChannel (partyId : List Char) : List Char :=
  partyId.map jsToUpperChar

section Lemmas

/-- Reading a key just mutated through the map sees the mutation. -/
theorem mapGet_mapUpdate_self {α : Type} (m : List (String × α)) (k : String)
    (f : α → α) : mapGet (mapUpdate m k f) k = (mapGet m k).map f := by
  induction m with
  | nil => rfl
  | cons p rest ih =>
      have hstep : mapUpdate (p :: rest) k f
          = (if p.1 == k then (p.1, f p.2) else p) :: mapUpdate rest k f := rfl
      rw [hstep]
      by_cases h : p.1 = k
      · simp [mapGet, h]
      · simp [mapGet, h, ih]

/-- Mutating one key leaves every other key's entry unread. -/
theorem mapGet_mapUpdate_ne {α : Type} (m : List (String × α)) (k k2 : String)
    (f : α → α) (hne : k ≠ k2) :
    mapGet (mapUpdate m k f) k2 = mapGet m k2 := by
  induction m with
  | nil => rfl
  | cons p rest ih =>
      have hstep : mapUpdate (p :: rest) k f
          = (if p.1 == k then (p.1, f p.2) else p) :: mapUpdate rest k f := rfl
      rw [hstep]
      by_cases h : p.1 = k
      · have h2 : p.1 ≠ k2 := h ▸ hne
        simp [mapGet, h, h2, hne, ih]
      · by_cases h2 : p.1 = k2
        · simp [mapGet, h, h2, Ne.symm hne]
        · simp [mapGet, h, h2, ih]

end Lemmas

/-- An Army value as the constructor leaves it before any power-up
(`isInvincible = false`, `speedMultiplier = 1`, `isReversed = false`,
`magnetActive = false`, `maxSoldiers = SOLDIERS_PER_ARMY`), carrying the
given roster and leader reference. -/
def armyInit (t : String) (ss : List Soldier) (ld : Option String) : Army :=
  { type := t, soldiers := ss, leader := ld, isInvincible := false,
    speedMultiplier := 1, isReversed := false, magnetActive := false,
    maxSoldiers := SOLDIERS_PER_ARMY }

/-- C3: the RPS dominance function is total and anti-symmetric over the
three factions: `getRPSWinner A B = getRPSWinner B A` for all factions,
the diagonal is `none`, and each distinct ordered pair resolves to the
dominating faction (rock beats scissors, scissors beats paper, paper
beats rock). -/
theorem C3_rps_dominance (A B : Faction) :
    getRPSWinner A.str B.str = getRPSWinner B.str A.str
    ∧ getRPSWinner A.str A.str = none
    ∧ getRPSWinner ROCK SCISSORS = some ROCK
    ∧ getRPSWinner SCISSORS ROCK = some ROCK
    ∧ getRPSWinner SCISSORS PAPER = some SCISSORS
    ∧ getRPSWinner PAPER SCISSORS = some SCISSORS
    ∧ getRPSWinner PAPER ROCK = some PAPER
    ∧ getRPSWinner ROCK PAPER = some PAPER := by
  cases A <;> cases B <;> decide

/-- C4: a soldier's id is invariant under any sequence of faction changes
(Soldier.changeType), and the conversion move between armies
(Game.convertSoldier) appends the moved soldier to the destination roster
under its original id. -/
theorem C4_soldier_id_stable :
    (∀ (s : Soldier) (fs : List String),
        (fs.foldl Soldier.changeType s).id = s.id)
    ∧ (∀ (armies : List (String × Army)) (fromT toT toArmyType : String)
        (s : Soldier) (aTo : Army), fromT ≠ toT →
        mapGet armies toT = some aTo →
        (mapGet (convertSoldierMap armies fromT toT toArmyType s) toT).map
            (fun a => a.soldiers.map (·.id))
          = some (aTo.soldiers.map (·.id) ++ [s.id])) := by
  constructor
  · intro s fs
    induction fs generalizing s with
    | nil => rfl
    | cons f rest ih => simpa [Soldier.changeType] using ih (s.changeType f)
  · intro armies fromT toT toArmyType s aTo hne hget
    unfold convertSoldierMap
    rw [mapGet_mapUpdate_self,
        mapGet_mapUpdate_ne _ _ _ _ hne,
        mapGet_mapUpdate_ne _ _ _ _ hne, hget]
    simp [Army.addSoldier]

/-- C4 witness: a concrete soldier keeps its id through two faction changes
and through a conversion move from the rock army into the paper army. -/
theorem C4_soldier_id_stable_witness :
    (([PAPER, ROCK].foldl Soldier.changeType (newSoldier ROCK false "s1")).id
        = "s1")
    ∧ (mapGet (convertSoldierMap
          [(ROCK, armyInit ROCK [newSoldier ROCK false "s1"] none),
           (PAPER, armyInit PAPER [newSoldier PAPER true "paper_LEADER"]
              (some "paper_LEADER"))]
          ROCK PAPER PAPER (newSoldier ROCK false "s1")) PAPER).map
        (fun a => a.soldiers.map (·.id))
      = some ((armyInit PAPER [newSoldier PAPER true "paper_LEADER"]
          (some "paper_LEADER")).soldiers.map (·.id) ++ ["s1"]) := by
  exact ⟨C4_soldier_id_stable.1 (newSoldier ROCK false "s1") [PAPER, ROCK],
    C4_soldier_id_stable.2 _ ROCK PAPER PAPER (newSoldier ROCK false "s1") _
      (by decide) (by decide)⟩

/-- C1: the conversion mutation of Game.convertSoldier applied to a leader —
exactly the removeSoldier-then-addSoldier move named by the claim — leaves
the destination army non-empty with TWO soldiers flagged leader: the
moved ex-leader keeps its isLeader flag because no code path ever clears
it. The source army is promoted correctly to exactly one leader, so the
exactly-one-leader invariant fails only on the destination side. -/
theorem C1_leader_flag_violation :
    ((mapGet (convertSoldierMap
        [(ROCK, armyInit ROCK
            [newSoldier ROCK true "rock_LEADER", newSoldier ROCK false "rock_0"]
            (some "rock_LEADER")),
         (PAPER, armyInit PAPER [newSoldier PAPER true "paper_LEADER"]
            (some "paper_LEADER")),
         (SCISSORS, armyInit SCISSORS [newSoldier SCISSORS true "scissors_LEADER"]
            (some "scissors_LEADER"))]
        ROCK PAPER PAPER (newSoldier ROCK true "rock_LEADER")) PAPER).map
        (fun a => ((a.soldiers.filter (·.isLeader)).length, a.soldiers.length))
      = some (2, 2))
    ∧ ((mapGet (convertSoldierMap
        [(ROCK, armyInit ROCK
            [newSoldier ROCK true "rock_LEADER", newSoldier ROCK false "rock_0"]
            (some "rock_LEADER")),
         (PAPER, armyInit PAPER [newSoldier PAPER true "paper_LEADER"]
            (some "paper_LEADER")),
         (SCISSORS, armyInit SCISSORS [newSoldier SCISSORS true "scissors_LEADER"]
            (some "scissors_LEADER"))]
        ROCK PAPER PAPER (newSoldier ROCK true "rock_LEADER")) ROCK).map
        (fun a => ((a.soldiers.filter (·.isLeader)).length, a.soldiers.length))
      = some (1, 1)) := by
  decide

/-- C5 counterexample: an army above its maximum roster size (6 of 5 is
reachable because conversion gains are uncapped) that collects
Reinforcement with amount 2 keeps its 6 soldiers, while the claimed
formula min(n + k, maxSoldiers) demands 5. -/
theorem C5_counterexample :
    ((armyInit ROCK
        [newSoldier ROCK true "L", newSoldier ROCK false "f1",
         newSoldier ROCK false "f2", newSoldier ROCK false "f3",
         newSoldier ROCK false "f4", newSoldier ROCK false "f5"]
        (some "L")).reinforceSoldiers 2 0 (fun _ => (1, 0))).soldiers.length = 6
    ∧ min (6 + 2) SOLDIERS_PER_ARMY = 5 ∧ (6 : Nat) ≠ 5 := by
  decide

/-- C5 amended: for an army at or below its maximum roster size,
Reinforcement with amount k ≥ 0 leaves exactly min(n + k, maxSoldiers)
soldiers — in particular 3 of 5 with soldiersToRestore = 2 ends at 5,
never 6; an army at or above the maximum gains no soldiers (its roster
size is unchanged, not reduced to the maximum). -/
theorem C5_reinforce_cap (a : Army) (k : Int) (now : Nat) (rng : Nat → ℚ × ℚ)
    (hk : 0 ≤ k) :
    (a.soldiers.length ≤ a.maxSoldiers →
      (((a.reinforceSoldiers k now rng).soldiers.length : Int)
        = min ((a.soldiers.length : Int) + k) (a.maxSoldiers : Int)))
    ∧ (a.maxSoldiers ≤ a.soldiers.length →
      (a.reinforceSoldiers k now rng).soldiers.length = a.soldiers.length) := by
  have hlen : (a.reinforceSoldiers k now rng).soldiers.length
      = a.soldiers.length
        + (min k ((a.maxSoldiers : Int) - (a.soldiers.length : Int))).toNat := by
    simp [Army.reinforceSoldiers]
  constructor
  · intro h
    rw [hlen]
    push_cast
    omega
  · intro h
    rw [hlen]
    omega

/-- C5 witness: a concrete rock army at 3 of 5 collecting Reinforcement with
the configured soldiersToRestore = 2 ends at exactly 5 soldiers. -/
theorem C5_reinforce_cap_witness :
    ((armyInit ROCK
        [newSoldier ROCK true "L", newSoldier ROCK false "f1",
         newSoldier ROCK false "f2"] (some "L")).reinforceSoldiers
        REINFORCEMENT_SOLDIERS_TO_RESTORE 0 (fun _ => (1, 0))).soldiers.length
      = 5 := by
  have h := (C5_reinforce_cap
    (armyInit ROCK
      [newSoldier ROCK true "L", newSoldier ROCK false "f1",
       newSoldier ROCK false "f2"] (some "L"))
    REINFORCEMENT_SOLDIERS_TO_RESTORE 0 (fun _ => (1, 0)) (by decide)).1
    (by decide)
  simp [armyInit, REINFORCEMENT_SOLDIERS_TO_RESTORE, SOLDIERS_PER_ARMY] at h
  exact_mod_cast h

/-- C6 counterexample: when `Math.random()` returns 1/2 (base-36 expansion
digit 18, printed "0.i"), the cloud-relay generatePartyId produces the
one-character code "I" — not six characters, and the character I is
outside the unambiguous alphabet the claim requires. -/
theorem C6_counterexample :
    generatePartyIdRelay [(18 : Fin 36)] = ['I']
    ∧ (generatePartyIdRelay [(18 : Fin 36)]).length ≠ 6
    ∧ 'I' ∉ PARTY_ID_CHARS := by
  decide

/-- C6 amended: the PeerJS generatePartyId always yields exactly six
characters from the unambiguous alphabet, which indeed excludes I, O, 0
and 1; the cloud-relay generatePartyId yields at most six characters
drawn from the full uppercased base-36 alphabet (so it can be shorter
than six and can contain I, O, 0 or 1); join codes over the generators'
alphabets are normalized to uppercase before use as the channel name. -/
theorem C6_party_code_amended :
    (∀ pick : Nat → Fin 32,
        (generatePartyId pick).length = 6
        ∧ (generatePartyId pick).all (fun c => PARTY_ID_CHARS.contains c) = true)
    ∧ ('I' ∉ PARTY_ID_CHARS ∧ 'O' ∉ PARTY_ID_CHARS ∧ '0' ∉ PARTY_ID_CHARS
        ∧ '1' ∉ PARTY_ID_CHARS)
    ∧ (∀ ds : List (Fin 36),
        (generatePartyIdRelay ds).length ≤ 6
        ∧ (generatePartyIdRelay ds).all
            (fun c => base36UpperDigits.contains c) = true)
    ∧ (∀ pid : List Char,
        (∀ c ∈ pid, c ∈ base36Digits ∨ c ∈ base36UpperDigits) →
        (joinPartyChannel pid).all
          (fun c => base36UpperDigits.contains c) = true) := by
  refine ⟨?_, by decide, ?_, ?_⟩
  · intro pick
    constructor
    · simp [generatePartyId]
    · rw [List.all_eq_true]
      intro c hc
      rw [generatePartyId, List.mem_map] at hc
      obtain ⟨i, _, rfl⟩ := hc
      have hmem : ∀ n : Fin 32,
          PARTY_ID_CHARS.contains (PARTY_ID_CHARS.getD n.val 'A') = true := by
        decide
      exact hmem (pick i)
  · intro ds
    cases ds with
    | nil => decide
    | cons d rest =>
        constructor
        · simp only [generatePartyIdRelay, List.length_map, List.length_take]
          exact Nat.min_le_left _ _
        · rw [List.all_eq_true]
          intro c hc
          rw [generatePartyIdRelay, List.mem_map] at hc
          obtain ⟨c0, hc0, rfl⟩ := hc
          have hc1 : c0 ∈ (jsNumToString36 (d :: rest)).drop 2 :=
            List.mem_of_mem_take hc0
          rw [jsNumToString36] at hc1
          simp only [List.isEmpty_cons, List.drop_succ_cons, List.drop_zero,
            ite_false, Bool.false_eq_true] at hc1
          rw [List.mem_map] at hc1
          obtain ⟨dd, _, rfl⟩ := hc1
          have h36 : ∀ n : Fin 36,
              base36UpperDigits.contains
                (jsToUpperChar (base36Digits.getD n.val '0')) = true := by
            decide
          exact h36 dd
  · intro pid hpid
    rw [List.all_eq_true]
    intro c hc
    rw [joinPartyChannel, List.mem_map] at hc
    obtain ⟨c0, hc0, rfl⟩ := hc
    have hA : ∀ c ∈ base36Digits,
        base36UpperDigits.contains (jsToUpperChar c) = true := by decide
    have hB : ∀ c ∈ base36UpperDigits,
        base36UpperDigits.contains (jsToUpperChar c) = true := by decide
    rcases hpid c0 hc0 with h | h
    · exact hA c0 h
    · exact hB c0 h

/-- C6 witness: a concrete mixed-case join code over the code alphabets is
normalized to uppercase characters for the channel name. -/
theorem C6_party_code_amended_witness :
    (∀ c ∈ ['a', 'B', '3'], c ∈ base36Digits ∨ c ∈ base36UpperDigits)
    ∧ (joinPartyChannel ['a', 'B', '3']).all
        (fun c => base36UpperDigits.contains c) = true :=
  ⟨by decide, C6_party_code_amended.2.2.2 ['a', 'B', '3'] (by decide)⟩

/-- Setting a key makes it readable: the JS `map.set(k, v)` followed by
`map.get(k)` yields `v`, whether the key replaced an entry or appended. -/
theorem mapGet_mapSet_self {α : Type} (m : List (String × α)) (k : String)
    (v : α) : mapGet (mapSet m k v) k = some v := by
  induction m with
  | nil => simp [mapSet, mapHas, mapGet]
  | cons p rest ih =>
      by_cases h : p.1 = k
      · simp [mapSet, mapHas, mapGet, h]
      · have hhas : mapHas (p :: rest) k = mapHas rest k := by
          simp [mapHas, mapGet, h]
        by_cases hh : mapHas rest k
        · rw [mapSet, if_pos (hhas ▸ hh)]
          rw [mapSet, if_pos hh] at ih
          simpa [mapGet, h] using ih
        · rw [mapSet, if_neg (by simp [hhas, hh])]
          rw [mapSet, if_neg (by simp [hh])] at ih
          simpa [mapGet, h] using ih

/-- C2: during the Playing phase the per-tick win-condition check moves the
match to Ended if and only if exactly one of the three armies has a
non-zero soldier count; with zero, two or three non-empty armies the game
state is left completely unchanged; and in the single-survivor case the
match ends in that faction's favor (the endGame path with that faction as
winner). -/
theorem C2_win_condition (g : GameState) (aR aP aS : Army)
    (harm : g.armies = [(ROCK, aR), (PAPER, aP), (SCISSORS, aS)])
    (hplay : g.state = PLAYING) :
    ((g.checkWinCondition.state = ENDED) ↔
      ((0 < aR.soldiers.length ∧ aP.soldiers.length = 0 ∧ aS.soldiers.length = 0)
        ∨ (aR.soldiers.length = 0 ∧ 0 < aP.soldiers.length ∧ aS.soldiers.length = 0)
        ∨ (aR.soldiers.length = 0 ∧ aP.soldiers.length = 0 ∧ 0 < aS.soldiers.length)))
    ∧ (¬ ((0 < aR.soldiers.length ∧ aP.soldiers.length = 0 ∧ aS.soldiers.length = 0)
        ∨ (aR.soldiers.length = 0 ∧ 0 < aP.soldiers.length ∧ aS.soldiers.length = 0)
        ∨ (aR.soldiers.length = 0 ∧ aP.soldiers.length = 0 ∧ 0 < aS.soldiers.length))
        → g.checkWinCondition = g)
    ∧ ((0 < aR.soldiers.length ∧ aP.soldiers.length = 0 ∧ aS.soldiers.length = 0)
        → g.checkWinCondition = g.endGame ROCK)
    ∧ ((aR.soldiers.length = 0 ∧ 0 < aP.soldiers.length ∧ aS.soldiers.length = 0)
        → g.checkWinCondition = g.endGame PAPER)
    ∧ ((aR.soldiers.length = 0 ∧ aP.soldiers.length = 0 ∧ 0 < aS.soldiers.length)
        → g.checkWinCondition = g.endGame SCISSORS) := by
  have hne : (PLAYING = ENDED) = False := by
    simp [PLAYING, ENDED]
  by_cases hR : aR.soldiers.length = 0 <;>
    by_cases hP : aP.soldiers.length = 0 <;>
      by_cases hS : aS.soldiers.length = 0 <;>
        simp_all [GameState.checkWinCondition, GameState.endGame,
          Nat.pos_iff_ne_zero]

/-- C2 witness: a concrete playing-phase game where only the paper army is
non-empty transitions to Ended with paper as the winner. -/
theorem C2_win_condition_witness :
    (GameState.checkWinCondition
      { state := PLAYING,
        armies := [(ROCK, armyInit ROCK [] none),
                   (PAPER, armyInit PAPER [newSoldier PAPER true "pl"] (some "pl")),
                   (SCISSORS, armyInit SCISSORS [] none)],
        isSpawning := true, gameOver := none }).state = ENDED := by
  have h := (C2_win_condition
    { state := PLAYING,
      armies := [(ROCK, armyInit ROCK [] none),
                 (PAPER, armyInit PAPER [newSoldier PAPER true "pl"] (some "pl")),
                 (SCISSORS, armyInit SCISSORS [] none)],
      isSpawning := true, gameOver := none }
    (armyInit ROCK [] none)
    (armyInit PAPER [newSoldier PAPER true "pl"] (some "pl"))
    (armyInit SCISSORS [] none) rfl rfl).1
  exact h.mpr (Or.inr (Or.inl (by decide)))

/-- C7: the host answering a join_request assigns Paper when it is
unclaimed, otherwise Scissors when it is unclaimed, never Rock; when both
are claimed it replies party_full addressed to the requester and leaves
the player roster untouched. -/
theorem C7_join_assignment (players : List (String × Player))
    (reqId reqUsername : String) :
    (mapHas players PAPER = false →
      (∃ ps, (handleJoinRequest true players reqId reqUsername).2
          = some (JoinReply.playerAssigned reqId PAPER ps))
      ∧ mapGet (handleJoinRequest true players reqId reqUsername).1 PAPER
          = some { id := reqId, username := reqUsername, connected := true })
    ∧ (mapHas players PAPER = true → mapHas players SCISSORS = false →
      (∃ ps, (handleJoinRequest true players reqId reqUsername).2
          = some (JoinReply.playerAssigned reqId SCISSORS ps))
      ∧ mapGet (handleJoinRequest true players reqId reqUsername).1 SCISSORS
          = some { id := reqId, username := reqUsername, connected := true })
    ∧ (∀ tid t ps, (handleJoinRequest true players reqId reqUsername).2
          = some (JoinReply.playerAssigned tid t ps) → t ≠ ROCK)
    ∧ (mapHas players PAPER = true → mapHas players SCISSORS = true →
      handleJoinRequest true players reqId reqUsername
        = (players, some (JoinReply.partyFull reqId))) := by
  by_cases hp : mapHas players PAPER <;>
    by_cases hs : mapHas players SCISSORS <;>
      refine ⟨?_, ?_, ?_, ?_⟩ <;>
        simp_all [handleJoinRequest, getNextAvailableType, mapGet_mapSet_self,
          PAPER, SCISSORS, ROCK]

/-- C7 witness: with only the host's Rock claimed, a concrete join request
is assigned Paper and registered in the roster under Paper. -/
theorem C7_join_assignment_witness :
    ((∃ ps, (handleJoinRequest true
        [(ROCK, { id := "host", username := "h", connected := true })]
        "joiner" "j").2 = some (JoinReply.playerAssigned "joiner" PAPER ps))
      ∧ mapGet (handleJoinRequest true
          [(ROCK, { id := "host", username := "h", connected := true })]
          "joiner" "j").1 PAPER
        = some { id := "joiner", username := "j", connected := true }) :=
  (C7_join_assignment
    [(ROCK, { id := "host", username := "h", connected := true })]
    "joiner" "j").1 (by decide)

/-- Interpolating halfway toward the target never increases distance. -/
theorem lerp_half_abs (p t : ℚ) : |p + (t - p) * (1/2) - t| ≤ |p - t| := by
  have h : p + (t - p) * (1/2) - t = (p - t) / 2 := by ring
  rw [h, abs_div]
  have h2 : |p - t| / |(2 : ℚ)| = |p - t| / 2 := by norm_num
  rw [h2]
  linarith [abs_nonneg (p - t)]

/-- Interpolating halfway toward the target stays between start and
target. -/
theorem lerp_half_between (p t : ℚ) :
    min p t ≤ p + (t - p) * (1/2) ∧ p + (t - p) * (1/2) ≤ max p t := by
  rcases le_total p t with h | h
  · rw [min_eq_left h, max_eq_right h]
    constructor <;> linarith
  · rw [min_eq_right h, max_eq_left h]
    constructor <;> linarith

/-- C8: the client-side game_state interpolation uses the fixed factor 1/2,
strictly between 0 and 1; for a stationary authoritative position the
per-axis error never increases and the interpolated position never leaves
the closed interval between the old position and the authoritative value
(no overshoot); a second application of the same data moves the position
no further from the authoritative value than the first and leaves the
directly-overwritten status flags unchanged. -/
theorem C8_interpolation :
    ((0 : ℚ) < lerpSpeed ∧ lerpSpeed < 1)
    ∧ (∀ (s : Soldier) (srvX srvZ : ℚ),
        |(syncSoldierPos s srvX srvZ).x - srvX| ≤ |s.x - srvX|
        ∧ |(syncSoldierPos s srvX srvZ).z - srvZ| ≤ |s.z - srvZ|)
    ∧ (∀ (s : Soldier) (srvX srvZ : ℚ),
        min s.x srvX ≤ (syncSoldierPos s srvX srvZ).x
        ∧ (syncSoldierPos s srvX srvZ).x ≤ max s.x srvX
        ∧ min s.z srvZ ≤ (syncSoldierPos s srvX srvZ).z
        ∧ (syncSoldierPos s srvX srvZ).z ≤ max s.z srvZ)
    ∧ (∀ (s : Soldier) (srvX srvZ : ℚ),
        |(syncSoldierPos (syncSoldierPos s srvX srvZ) srvX srvZ).x - srvX|
          ≤ |(syncSoldierPos s srvX srvZ).x - srvX|
        ∧ |(syncSoldierPos (syncSoldierPos s srvX srvZ) srvX srvZ).z - srvZ|
          ≤ |(syncSoldierPos s srvX srvZ).z - srvZ|)
    ∧ (∀ (a : Army) (d : ServerArmyData),
        ((a.applyServerArmy d).applyServerArmy d).isInvincible
          = (a.applyServerArmy d).isInvincible
        ∧ ((a.applyServerArmy d).applyServerArmy d).speedMultiplier
          = (a.applyServerArmy d).speedMultiplier) := by
  refine ⟨by norm_num [lerpSpeed], ?_, ?_, ?_, ?_⟩
  · intro s srvX srvZ
    exact ⟨by simpa [syncSoldierPos, lerpSpeed] using lerp_half_abs s.x srvX,
           by simpa [syncSoldierPos, lerpSpeed] using lerp_half_abs s.z srvZ⟩
  · intro s srvX srvZ
    refine ⟨?_, ?_, ?_, ?_⟩
    · simpa [syncSoldierPos, lerpSpeed] using (lerp_half_between s.x srvX).1
    · simpa [syncSoldierPos, lerpSpeed] using (lerp_half_between s.x srvX).2
    · simpa [syncSoldierPos, lerpSpeed] using (lerp_half_between s.z srvZ).1
    · simpa [syncSoldierPos, lerpSpeed] using (lerp_half_between s.z srvZ).2
  · intro s srvX srvZ
    exact ⟨by simpa [syncSoldierPos, lerpSpeed] using
             lerp_half_abs (s.x + (srvX - s.x) * (1/2)) srvX,
           by simpa [syncSoldierPos, lerpSpeed] using
             lerp_half_abs (s.z + (srvZ - s.z) * (1/2)) srvZ⟩
  · intro a d
    exact ⟨by simp [Army.applyServerArmy], by simp [Army.applyServerArmy]⟩

/-- C9: handling a conversion message whose source or destination faction
has no local army, whose soldier id is not in the source roster, or whose
soldier is already mid-conversion leaves the game state completely
unchanged (armies, factions and ids included); when every check passes the
handler applies convertSoldierMap — the identical Game.convertSoldier
mutation used by the host-side collision path. -/
theorem C9_remote_conversion_guards (g : GameState) (msg : ConversionMsg) :
    (mapGet g.armies msg.fromType = none → handleRemoteConversion g msg = g)
    ∧ (mapGet g.armies msg.toType = none → handleRemoteConversion g msg = g)
    ∧ (∀ fromA, mapGet g.armies msg.fromType = some fromA →
        findById fromA.soldiers msg.soldierId = none →
        handleRemoteConversion g msg = g)
    ∧ (∀ fromA s, mapGet g.armies msg.fromType = some fromA →
        findById fromA.soldiers msg.soldierId = some s →
        s.isConverting = true → handleRemoteConversion g msg = g)
    ∧ (∀ fromA toA s, mapGet g.armies msg.fromType = some fromA →
        mapGet g.armies msg.toType = some toA →
        findById fromA.soldiers msg.soldierId = some s →
        s.isConverting = false →
        handleRemoteConversion g msg
          = { g with armies := convertSoldierMap g.armies msg.fromType
                        msg.toType toA.type s }) := by
  refine ⟨?_, ?_, ?_, ?_, ?_⟩
  · intro h
    simp [handleRemoteConversion, h]
  · intro h
    rcases hF : mapGet g.armies msg.fromType with _ | fromA <;>
      simp [handleRemoteConversion, hF, h]
  · intro fromA hF hFind
    rcases hT : mapGet g.armies msg.toType with _ | toA <;>
      simp [handleRemoteConversion, hF, hT, hFind]
  · intro fromA s hF hFind hConv
    rcases hT : mapGet g.armies msg.toType with _ | toA <;>
      simp [handleRemoteConversion, hF, hT, hFind, hConv]
  · intro fromA toA s hF hT hFind hConv
    simp [handleRemoteConversion, hF, hT, hFind, hConv]

/-- C9 witness: a conversion message naming a faction with no local army is
a no-op on a concrete game state. -/
theorem C9_remote_conversion_guards_witness :
    handleRemoteConversion
      { state := PLAYING,
        armies := [(ROCK, armyInit ROCK [newSoldier ROCK true "rl"] (some "rl"))],
        isSpawning := true, gameOver := none }
      { soldierId := "ghost", fromType := "banana", toType := ROCK }
      = { state := PLAYING,
          armies := [(ROCK, armyInit ROCK [newSoldier ROCK true "rl"] (some "rl"))],
          isSpawning := true, gameOver := none } :=
  (C9_remote_conversion_guards _ _).1 (by decide)

/-- C10: Army.update on an eliminated (empty-roster) army returns without
mutating anything — no positions, leader reference or status-effect
fields change, for every delta, input and arena — and a null/undefined
input is likewise a complete no-op for any army. -/
theorem C10_empty_army_update_noop (ops : JsMath) (delta : ℚ)
    (input : Option InputVec) (arena : Arena) (a : Army) :
    (a.soldiers = [] → a.update ops delta input arena = a)
    ∧ a.update ops delta none arena = a := by
  constructor
  · intro h
    cases input with
    | none => rfl
    | some inp => simp [Army.update, h]
  · rfl

/-- C10 witness: a concrete eliminated army is untouched by an update with
a concrete non-zero input. -/
theorem C10_empty_army_update_noop_witness :
    (armyInit ROCK [] none).update { sqrt := fun _ => 0 } 1
        (some { x := 1, z := 1 }) { walls := [], slowZones := [], speedZones := [] }
      = armyInit ROCK [] none :=
  (C10_empty_army_update_noop { sqrt := fun _ => 0 } 1
    (some { x := 1, z := 1 }) { walls := [], slowZones := [], speedZones := [] }
    (armyInit ROCK [] none)).1 rfl

end RPS
